import Mathlib

/-!
A verification development for the RAG query pipeline of
`rag-openshift-ai-api`.  The Python sources (`src/rag/retriever.py`,
`src/rag/agent.py`, `src/api/routes.py`, `src/config/settings.py`,
`src/shared_models.py`) are shallowly embedded here: Python floats are
modelled as rationals (exact arithmetic), Python dicts holding document
metadata as association lists over an explicit value type, exceptions as
explicit branches, and the external collaborators (embedding model,
Elasticsearch, the LLM backend, the wall clock) as oracle fields of an
environment record.
-/

namespace RagApi

/-- A value stored in a metadata dictionary (`Dict[str, Any]` in the
source).  `null` is Python's `None`. -/
inductive MetaVal where
  | str : String → MetaVal
  | num : ℚ → MetaVal
  | int : Int → MetaVal
  | bool : Bool → MetaVal
  | null : MetaVal
deriving DecidableEq

/-- A metadata dictionary: association list from string keys to values.
Python dicts have unique keys; all statements below go through
`List.lookup`, which is insensitive to duplicates. -/
abbrev Metadata := List (String × MetaVal)

/-- A LangChain `Document` (`langchain.schema.Document`): page content
plus a metadata dictionary. -/
structure Document where
  page_content : String
  metadata : Metadata
deriving DecidableEq

/-- A metadata filter value: Python `list` values become `terms`
conditions, scalars become `term` conditions (retriever.py:169-172). -/
inductive FilterVal where
  | list : List MetaVal → FilterVal
  | scalar : MetaVal → FilterVal
deriving DecidableEq

/-- `SearchParams` (retriever.py:33-41).  `top_k` is a result count
(the API layer enforces `ge=1`, models.py), so it is a `Nat` here. -/
structure SearchParams where
  top_k : Nat := 5
  similarity_threshold : ℚ := 7/10
  search_type : String := "vector"
  metadata_filters : Option (List (String × FilterVal)) := none
  text_query : Option String := none
deriving DecidableEq

/-- `SearchResult` (retriever.py:22-30).  `chunk_id` and
`document_name` hold whatever value the metadata dictionary held, or
nothing when the key is absent (Python `dict.get` returning `None`). -/
structure SearchResult where
  text : String
  metadata : Metadata
  score : ℚ
  chunk_id : Option MetaVal
  document_name : Option MetaVal
deriving DecidableEq

/-- An Elasticsearch hit: `hit["_score"]` and `hit["_source"]`
(retriever.py:339-346). -/
structure ESHit where
  score : ℚ
  source : Metadata
deriving DecidableEq

/-- An Elasticsearch search response, reduced to `response["hits"]["hits"]`. -/
structure ESResponse where
  hits : List ESHit
deriving DecidableEq

/-- Insert one result into a list that is already sorted by score
descending, in front of the first element whose score is not larger.
Keeping elements with the same score in their original order makes the
sort stable, like Python's `list.sort`. -/
def insertDesc (x : SearchResult) : List SearchResult → List SearchResult
  | [] => [x]
  | h :: t => if x.score < h.score then h :: insertDesc x t else x :: h :: t

/-- Stable sort by score descending: the embedding of
`results.sort(key=lambda x: x.score, reverse=True)` (retriever.py:367). -/
def sortByScoreDesc : List SearchResult → List SearchResult
  | [] => []
  | h :: t => insertDesc h (sortByScoreDesc t)

/-- Build one `SearchResult` from a hit (retriever.py:346-362): the
text field read from `_source` with default `""`, the metadata
dictionary restricted to the configured metadata fields, and
`chunk_id` / `document_name` looked up from that restricted metadata. -/
def resultOfHit (textField : String) (metadataFields : List String) (h : ESHit) : SearchResult :=
  let text := match List.lookup textField h.source with
    | some (MetaVal.str s) => s
    | _ => ""
  let metadata : Metadata :=
    metadataFields.filterMap fun f => (List.lookup f h.source).map fun v => (f, v)
  { text := text
    metadata := metadata
    score := h.score
    chunk_id := List.lookup "chunk_id" metadata
    document_name := List.lookup "filename" metadata }

/-- `_process_results` (retriever.py:327-392): drop every hit whose raw
score is below `similarity_threshold` (the loop's `continue`), build
`SearchResult`s, sort by raw score descending, truncate to `top_k`. -/
def processResults (textField : String) (metadataFields : List String)
    (resp : ESResponse) (p : SearchParams) : List SearchResult :=
  let kept := resp.hits.filter fun h => !decide (h.score < p.similarity_threshold)
  let results := kept.map (resultOfHit textField metadataFields)
  (sortByScoreDesc results).take p.top_k

/-- One filter condition of the Elasticsearch query body:
`{"terms": {field: value}}` for list values, `{"term": {field: value}}`
for scalars (retriever.py:166-172). -/
inductive FilterCond where
  | terms : String → List MetaVal → FilterCond
  | term : String → MetaVal → FilterCond
deriving DecidableEq

/-- The `multi_match` clause shared by the hybrid and keyword builders
(retriever.py:193-199, 242-248). -/
structure MultiMatch where
  query : String
  fields : List String
  matchType : String
  fuzziness : String
deriving DecidableEq

/-- The salient structure of the three Elasticsearch query bodies the
retriever can build: request size, the query vector where present, the
text-relevance clause where present, and the metadata filter
conditions. -/
inductive ESQuery where
  | vectorQ : Nat → List ℚ → List FilterCond → ESQuery
  | hybridQ : Nat → List ℚ → MultiMatch → List FilterCond → ESQuery
  | keywordQ : Nat → MultiMatch → List FilterCond → ESQuery
deriving DecidableEq

/-- Translate the metadata filters into filter conditions
(retriever.py:166-172). -/
def buildFilterConditions (filters : List (String × FilterVal)) : List FilterCond :=
  filters.map fun fv =>
    match fv.2 with
    | FilterVal.list vs => FilterCond.terms fv.1 vs
    | FilterVal.scalar v => FilterCond.term fv.1 v

/-- The filter conditions of a search: empty when `metadata_filters` is
absent (Python falsiness of `None` and of the empty dict collapse to
the same empty condition list). -/
def filtersOf (p : SearchParams) : List FilterCond :=
  match p.metadata_filters with
  | none => []
  | some fs => buildFilterConditions fs

def multiMatchFor (text : String) (textField : String) : MultiMatch :=
  { query := text, fields := [textField, "title^2"], matchType := "best_fields", fuzziness := "AUTO" }

/-- `_build_vector_query` (retriever.py:140-179). -/
def buildVectorQuery (emb : List ℚ) (p : SearchParams) : ESQuery :=
  ESQuery.vectorQ p.top_k emb (filtersOf p)

/-- `_build_hybrid_query` (retriever.py:181-231). -/
def buildHybridQuery (emb : List ℚ) (text : String) (p : SearchParams) (textField : String) : ESQuery :=
  ESQuery.hybridQ p.top_k emb (multiMatchFor text textField) (filtersOf p)

/-- `_build_keyword_query` (retriever.py:233-272). -/
def buildKeywordQuery (text : String) (p : SearchParams) (textField : String) : ESQuery :=
  ESQuery.keywordQ p.top_k (multiMatchFor text textField) (filtersOf p)

/-- Python truthiness of `search_params.text_query`: `None` and the
empty string are falsy. -/
def textQueryTruthy : Option String → Bool
  | none => false
  | some s => s != ""

/-- The query-construction dispatch of `search_relevant_documents`
(retriever.py:413-426): `vector` always builds the vector query;
`hybrid` and `keyword` require a truthy `text_query`, otherwise the
final `else` falls back to the vector query. -/
def selectQuery (emb : List ℚ) (p : SearchParams) (textField : String) : ESQuery :=
  if p.search_type = "vector" then
    buildVectorQuery emb p
  else if p.search_type = "hybrid" ∧ textQueryTruthy p.text_query = true then
    buildHybridQuery emb (p.text_query.getD "") p textField
  else if p.search_type = "keyword" ∧ textQueryTruthy p.text_query = true then
    buildKeywordQuery (p.text_query.getD "") p textField
  else
    buildVectorQuery emb p

/-- `DocumentSource` (shared_models.py): one source document exposed to
the caller of the API. -/
structure DocumentSource where
  document : String
  chunk_text : String
  score : ℚ
  metadata : Metadata
  chunk_id : Option String
  page_number : Option Int
deriving DecidableEq

/-- `QueryMetadata` (shared_models.py): per-query processing metrics. -/
structure QueryMetadata where
  processing_time_ms : Nat
  model_used : String
  chunks_retrieved : Nat
  query_embedding_time_ms : Nat
  search_time_ms : Nat
  llm_time_ms : Nat
  total_tokens : Nat
  prompt_tokens : Nat
  completion_tokens : Nat
deriving DecidableEq

/-- `QueryResponse` (shared_models.py): what `answer_query` returns. -/
structure QueryResponse where
  answer : String
  sources : List DocumentSource
  query_metadata : Option QueryMetadata
  confidence_score : ℚ
deriving DecidableEq

/-- The metadata keys the agent strips before exposing a source
(agent.py:298-299). -/
def excludedKeys : List String := ["score", "chunk_id", "document_name"]

/-- The raw backend score of a retrieved document:
`doc.metadata.get("score", 0.0)` (agent.py:277).  The retriever always
stores the raw Elasticsearch score as a float under this key. -/
def rawScore (doc : Document) : ℚ :=
  match List.lookup "score" doc.metadata with
  | some (MetaVal.num q) => q
  | _ => 0

/-- Score normalization at the caller boundary (agent.py:278):
`min(raw_score / 2.0, 1.0)`. -/
def normalizeScore (raw : ℚ) : ℚ :=
  min (raw / 2) 1

/-- The per-document body of `_extract_sources_from_documents`
(agent.py:267-312): normalized score, document name defaulting to
`"Unknown"` when absent or `None`, chunk text from the page content,
and a metadata dictionary with the internal keys stripped. -/
def extractSource (doc : Document) : DocumentSource :=
  let raw_score := rawScore doc
  let normalized_score := normalizeScore raw_score
  let document_name := match List.lookup "document_name" doc.metadata with
    | some (MetaVal.str s) => s
    | _ => "Unknown"
  let chunk_text := doc.page_content
  { document := document_name
    chunk_text := chunk_text
    score := normalized_score
    metadata := doc.metadata.filter fun kv => !decide (kv.1 ∈ excludedKeys)
    chunk_id := match List.lookup "chunk_id" doc.metadata with
      | some (MetaVal.str s) => some s
      | _ => none
    page_number := match List.lookup "page_number" doc.metadata with
      | some (MetaVal.int n) => some n
      | _ => none }

/-- `_extract_sources_from_documents` over a whole document list. -/
def extractSources (docs : List Document) : List DocumentSource :=
  docs.map extractSource

/-- `_calculate_confidence_score` (agent.py:314-328): 0 without
sources; otherwise the average source score, multiplied by `1.1` when
there is more than one source, capped at `1.0`. -/
def calculateConfidenceScore (answer : String) (sources : List DocumentSource) : ℚ :=
  if sources.isEmpty then 0
  else
    let avg_source_score := (sources.map DocumentSource.score).sum / (sources.length : ℚ)
    let avg_source_score := if 1 < sources.length then avg_source_score * (11/10) else avg_source_score
    min avg_source_score 1

/-- The sampling parameters held by the vLLM client (`temperature`,
`max_tokens`, `top_p`; agent.py:184-186, settings.py defaults 0.7, 512,
0.9). -/
structure LLMSettings where
  temperature : ℚ
  max_tokens : Nat
  top_p : ℚ
deriving DecidableEq

/-- Per-request generation overrides (`llm_params`). -/
structure LLMParams where
  temperature : Option ℚ := none
  max_tokens : Option Nat := none
  top_p : Option ℚ := none
deriving DecidableEq

/-- `RAGSettings` (settings.py:117-140) restricted to the fields the
pipeline reads. -/
structure RagSettings where
  top_k : Nat := 5
  similarity_threshold : ℚ := 7/10
  search_type : String := "vector"
  include_metadata : Bool := true
  include_sources : Bool := true
deriving DecidableEq

/-- The configuration the agent consumes. -/
structure Settings where
  modelName : String
  rag : RagSettings
  vllm : LLMSettings
deriving DecidableEq

/-- The mutable state of a `RAGAgent` instance: the shared vLLM
client's sampling fields and the two cumulative counters
(agent.py:161-168). -/
structure AgentState where
  llm : LLMSettings
  totalQueriesProcessed : Nat
  totalProcessingTime : ℚ
deriving DecidableEq

/-- The agent state right after `__init__`: the client carries the
configured defaults, the counters are zero. -/
def initialAgentState (cfg : Settings) : AgentState :=
  { llm := cfg.vllm, totalQueriesProcessed := 0, totalProcessingTime := 0 }

/-- `_update_llm_parameters` (agent.py:516-531): each supplied override
is written into the shared client; nothing is ever restored. -/
def updateLlmParameters (st : AgentState) (p : LLMParams) : AgentState :=
  let l := st.llm
  let l := match p.temperature with
    | some t => { l with temperature := t }
    | none => l
  let l := match p.max_tokens with
    | some m => { l with max_tokens := m }
    | none => l
  let l := match p.top_p with
    | some t => { l with top_p := t }
    | none => l
  { st with llm := l }

/-- A Python exception, reduced to its type name (`type(e).__name__`)
and its message (`str(e)`). -/
structure PyError where
  typeName : String
  message : String
deriving DecidableEq

/-- `pat` is a prefix of `s` (character lists). -/
def charsHasPre : List Char → List Char → Bool
  | [], _ => true
  | _ :: _, [] => false
  | a :: ps, b :: ss => a == b && charsHasPre ps ss

/-- `pat` occurs contiguously inside `s` (character lists). -/
def charsHasSub : List Char → List Char → Bool
  | [], pat => pat.isEmpty
  | s@(_ :: t), pat => charsHasPre pat s || charsHasSub t pat

/-- Python's `pat in s` on strings: substring containment. -/
def strContains (s pat : String) : Bool :=
  charsHasSub s.data pat.data

/-- The fixed no-results answer (agent.py:379). -/
def noInfoAnswer : String :=
  "I couldn\x27t find any relevant information to answer your question. Please try rephrasing or ask a different question."

/-- The fixed message for generation connectivity failures (agent.py:433-436). -/
def genConnectivityMessage : String :=
  "The AI model is currently unreachable due to connectivity issues. Please try again in a few minutes. If the problem persists, contact your administrator."

/-- The fixed message for a missing model at generation time (agent.py:438-441). -/
def genModelMessage : String :=
  "The AI model is not available at the moment. Please contact your administrator to check the model status."

/-- The fixed message for unknown generation failures (agent.py:443-446). -/
def genUnknownMessage : String :=
  "An unexpected error occurred while processing your request. Please try again later or contact support if the issue continues."

/-- The classification of a generation exception into a user message,
by its type name (agent.py:432-446). -/
def generationUserMessage (errorType : String) : String :=
  if strContains errorType "Connection" || strContains errorType "Timeout" then
    genConnectivityMessage
  else if strContains errorType "Model" || strContains errorType "NotFound" then
    genModelMessage
  else
    genUnknownMessage

/-- The classification used by the top-level handler of `answer_query`
(agent.py:502-508). -/
def topLevelUserMessage (errorType : String) : String :=
  if strContains errorType "Connection" || strContains errorType "Timeout" then
    "Sorry, I cannot process your question at the moment due to connectivity issues with the AI model. Please try again in a few minutes."
  else if strContains errorType "Model" || strContains errorType "NotFound" then
    "Sorry, the AI model is not available at the moment. Please contact your system administrator."
  else
    "Sorry, an unexpected error occurred while processing your question. Please try again later."

/-- Per-request retrieval overrides (`retrieval_params`). -/
structure RetrievalOverrides where
  top_k : Option Nat := none
  similarity_threshold : Option ℚ := none
  search_type : Option String := none
  metadata_filters : Option (List (String × FilterVal)) := none
  text_query : Option String := none
deriving DecidableEq

/-- The `SearchParams` construction of `answer_query` (agent.py:359-365):
each field from the overrides when present, else the configured
default; `metadata_filters` and `text_query` have no configured
default. -/
def resolveSearchParams (rag : RagSettings) (rp : Option RetrievalOverrides) : SearchParams :=
  match rp with
  | none =>
      { top_k := rag.top_k
        similarity_threshold := rag.similarity_threshold
        search_type := rag.search_type
        metadata_filters := none
        text_query := none }
  | some r =>
      { top_k := r.top_k.getD rag.top_k
        similarity_threshold := r.similarity_threshold.getD rag.similarity_threshold
        search_type := r.search_type.getD rag.search_type
        metadata_filters := r.metadata_filters
        text_query := r.text_query }

/-- The external collaborators of one `answer_query` call, as oracles:
the embedding manager, the retriever, the QA chain (returning either
the generated answer or the raised exception), the measured stage
timings, and the token usage reported by the backend. -/
structure QueryEnv where
  embedQuery : String → Option (List ℚ)
  retrieve : SearchParams → List Document
  qaChain : String → Except PyError String
  embedMs : Nat := 0
  retrieveMs : Nat := 0
  genMs : Nat := 0
  totalMs : Nat := 0
  totalElapsed : ℚ := 0
  promptTokens : Nat := 0
  completionTokens : Nat := 0
  totalTokens : Nat := 0

/-- The observable outcome of one `answer_query` call: the returned
response, the agent state afterwards, whether the QA chain was invoked
at all, and — when it was — the sampling parameters the client carried
at that moment. -/
structure QueryOutcome where
  response : QueryResponse
  finalState : AgentState
  llmCalled : Bool
  genParams : Option LLMSettings
deriving DecidableEq

/-- `answer_query` (agent.py:330-514).  Control flow of the source,
with exceptions as explicit branches:
an absent embedding raises `ValueError` (line 351), which only the
method's own top-level handler (line 497) sees, producing the generic
fallback response; empty retrieval short-circuits (lines 376-382)
before any generation work; `llm_params` are applied to the shared
client (line 389) after that check; a generation exception is caught
locally (lines 412-452); the success path extracts sources, computes
the confidence, honors the include flags, and increments the two
cumulative counters (lines 456-495). -/
def answerQuery (cfg : Settings) (st : AgentState) (env : QueryEnv)
    (question : String) (llmParams : Option LLMParams)
    (retrievalParams : Option RetrievalOverrides) : QueryOutcome :=
  match env.embedQuery question with
  | none =>
      { response :=
          { answer := topLevelUserMessage "ValueError"
            sources := []
            query_metadata := none
            confidence_score := 0 }
        finalState := st
        llmCalled := false
        genParams := none }
  | some _ =>
      let searchParams := resolveSearchParams cfg.rag retrievalParams
      let documents := env.retrieve searchParams
      if documents.isEmpty then
        { response :=
            { answer := noInfoAnswer
              sources := []
              query_metadata := none
              confidence_score := 0 }
          finalState := st
          llmCalled := false
          genParams := none }
      else
        let st1 := match llmParams with
          | some p => updateLlmParameters st p
          | none => st
        match env.qaChain question with
        | Except.error e =>
            { response :=
                { answer := generationUserMessage e.typeName
                  sources := []
                  query_metadata := none
                  confidence_score := 0 }
              finalState := st1
              llmCalled := true
              genParams := some st1.llm }
        | Except.ok answer =>
            let sources := extractSources documents
            let confidence_score := calculateConfidenceScore answer sources
            let query_metadata : QueryMetadata :=
              { processing_time_ms := env.totalMs
                model_used := cfg.modelName
                chunks_retrieved := documents.length
                query_embedding_time_ms := env.embedMs
                search_time_ms := env.retrieveMs
                llm_time_ms := env.genMs
                total_tokens := env.totalTokens
                prompt_tokens := env.promptTokens
                completion_tokens := env.completionTokens }
            { response :=
                { answer := answer
                  sources := if cfg.rag.include_sources then sources else []
                  query_metadata := if cfg.rag.include_metadata then some query_metadata else none
                  confidence_score := confidence_score }
              finalState :=
                { st1 with
                  totalQueriesProcessed := st1.totalQueriesProcessed + 1
                  totalProcessingTime := st1.totalProcessingTime + env.totalElapsed }
              llmCalled := true
              genParams := some st1.llm }

/-- What the `/query` route hands back for one request
(routes.py:92-190).  `answer_query` returns on every path — its body is
wrapped in a catch-all handler — so the route's `ValueError` (HTTP 400)
and generic handlers are unreachable from the agent and the route
always returns the agent's `QueryResponse` with success status. -/
inductive RouteResult where
  | ok : QueryResponse → RouteResult
  | clientError : Nat → String → RouteResult
  | serverError : Nat → String → RouteResult
deriving DecidableEq

/-- The `/query` endpoint behaviour over the embedded agent. -/
def routeProcessQuery (cfg : Settings) (st : AgentState) (env : QueryEnv)
    (question : String) (llmParams : Option LLMParams)
    (retrievalParams : Option RetrievalOverrides) : RouteResult :=
  RouteResult.ok (answerQuery cfg st env question llmParams retrievalParams).response

/-- The configured defaults of settings.py: vLLM temperature 0.7,
max_tokens 512, top_p 0.9; RAG top_k 5, similarity threshold 0.7,
vector search, sources and metadata included. -/
def defaultSettings : Settings :=
  { modelName := "granite-3-1-8b-instruct"
    rag := {}
    vllm := { temperature := 7/10, max_tokens := 512, top_p := 9/10 } }

/-- The retriever's default text field (retriever.py:61). -/
def defaultTextField : String := "text"

/-- The retriever's default metadata fields (retriever.py:70-72). -/
def defaultMetadataFields : List String :=
  ["filename", "chunk_id", "page_number", "document_type"]

/-- A `DocumentSource` with a given score; the other fields are fixed
sample data. -/
def mkSource (q : ℚ) : DocumentSource :=
  { document := "doc", chunk_text := "chunk", score := q
    metadata := [], chunk_id := none, page_number := none }

/-- A sample retrieved document with the metadata the retriever
produces. -/
def sampleDoc : Document :=
  { page_content := "chunk text"
    metadata := [("score", MetaVal.num (18/10)), ("chunk_id", MetaVal.str "c1"),
                 ("document_name", MetaVal.str "doc.pdf"), ("filename", MetaVal.str "doc.pdf"),
                 ("page_number", MetaVal.int 3)] }

section HelperLemmas

theorem insertDesc_perm (x : SearchResult) (l : List SearchResult) :
    List.Perm (insertDesc x l) (x :: l) := by
  induction l with
  | nil => simp [insertDesc]
  | cons h t ih =>
    by_cases hc : x.score < h.score
    · simp only [insertDesc, if_pos hc]
      exact (ih.cons h).trans (List.Perm.swap x h t)
    · simp [insertDesc, if_neg hc]

theorem sortByScoreDesc_perm (l : List SearchResult) : List.Perm (sortByScoreDesc l) l := by
  induction l with
  | nil => exact List.Perm.refl _
  | cons h t ih => exact (insertDesc_perm h (sortByScoreDesc t)).trans (ih.cons h)

theorem insertDesc_pairwise {x : SearchResult} {l : List SearchResult}
    (hl : l.Pairwise fun a b => b.score ≤ a.score) :
    (insertDesc x l).Pairwise fun a b => b.score ≤ a.score := by
  induction l with
  | nil => simp [insertDesc]
  | cons h t ih =>
    rcases List.pairwise_cons.mp hl with ⟨hh, ht⟩
    by_cases hc : x.score < h.score
    · simp only [insertDesc, if_pos hc]
      refine List.pairwise_cons.mpr ⟨?_, ih ht⟩
      intro y hy
      rcases List.mem_cons.mp ((insertDesc_perm x t).mem_iff.mp hy) with rfl | hy
      · exact le_of_lt hc
      · exact hh y hy
    · simp only [insertDesc, if_neg hc]
      push_neg at hc
      refine List.pairwise_cons.mpr ⟨?_, hl⟩
      intro y hy
      rcases List.mem_cons.mp hy with rfl | hy
      · exact hc
      · exact (hh y hy).trans hc

theorem sortByScoreDesc_pairwise (l : List SearchResult) :
    (sortByScoreDesc l).Pairwise fun a b => b.score ≤ a.score := by
  induction l with
  | nil => simp [sortByScoreDesc]
  | cons h t ih => exact insertDesc_pairwise ih

theorem lookup_filter_excluded (k : String) (hk : k ∈ excludedKeys) :
    ∀ m : Metadata,
      List.lookup k (m.filter fun kv => !decide (kv.1 ∈ excludedKeys)) = none := by
  intro m
  induction m with
  | nil => rfl
  | cons p t ih =>
    rcases p with ⟨k', v⟩
    rw [List.filter_cons]
    by_cases hp : k' ∈ excludedKeys
    · rw [if_neg (by simp [hp])]
      exact ih
    · rw [if_pos (by simp [hp])]
      have hne : (k == k') = false := beq_eq_false_iff_ne.mpr fun h => hp (h ▸ hk)
      simp [List.lookup_cons, hne, ih]

theorem lookup_filter_not_excluded (k : String) (hk : k ∉ excludedKeys) :
    ∀ m : Metadata,
      List.lookup k (m.filter fun kv => !decide (kv.1 ∈ excludedKeys)) =
        List.lookup k m := by
  intro m
  induction m with
  | nil => rfl
  | cons p t ih =>
    rcases p with ⟨k', v⟩
    rw [List.filter_cons]
    by_cases hp : k' ∈ excludedKeys
    · have hne : (k == k') = false := beq_eq_false_iff_ne.mpr fun h => hk (h ▸ hp)
      rw [if_neg (by simp [hp])]
      simp [List.lookup_cons, hne, ih]
    · rw [if_pos (by simp [hp])]
      cases hkk : (k == k') <;> simp [List.lookup_cons, hkk, ih]

theorem charsHasPre_length : ∀ p s : List Char, charsHasPre p s = true → p.length ≤ s.length := by
  intro p
  induction p with
  | nil => intro s _; simp
  | cons a ps ih =>
    intro s h
    cases s with
    | nil => simp [charsHasPre] at h
    | cons b ss =>
      simp only [charsHasPre, Bool.and_eq_true] at h
      simpa using Nat.succ_le_succ (ih ss h.2)

theorem charsHasSub_length : ∀ s pat : List Char, charsHasSub s pat = true → pat.length ≤ s.length := by
  intro s
  induction s with
  | nil =>
    intro pat h
    simp only [charsHasSub, List.isEmpty_iff] at h
    simp [h]
  | cons b t ih =>
    intro pat h
    simp only [charsHasSub, Bool.or_eq_true] at h
    rcases h with h | h
    · exact charsHasPre_length pat (b :: t) h
    · exact (ih pat h).trans (by simp)

theorem strContains_eq_false_of_longer (s pat : String) (h : s.data.length < pat.data.length) :
    strContains s pat = false := by
  cases hcs : strContains s pat with
  | false => rfl
  | true =>
    have hlen : pat.data.length ≤ s.data.length :=
      charsHasSub_length s.data pat.data (by simpa [strContains] using hcs)
    omega

theorem updateLlmParameters_counters (st : AgentState) (p : LLMParams) :
    (updateLlmParameters st p).totalQueriesProcessed = st.totalQueriesProcessed ∧
    (updateLlmParameters st p).totalProcessingTime = st.totalProcessingTime := by
  simp [updateLlmParameters]

end HelperLemmas

/-- C1: for a non-empty source list the confidence score equals the
average of the (already normalized) source scores, multiplied by 1.1
exactly when there is more than one source and capped at 1.0; for an
empty source list it is 0.0; one source of score 0.9 yields 0.9 and
sources 0.9 and 0.7 yield 0.88 (= 22/25). -/
theorem confidence_score_spec :
    (∀ a : String, calculateConfidenceScore a [] = 0) ∧
    (∀ (a : String) (ss : List DocumentSource), ss ≠ [] →
      calculateConfidenceScore a ss =
        min (((ss.map DocumentSource.score).sum / (ss.length : ℚ)) *
          (if 1 < ss.length then 11/10 else 1)) 1) ∧
    (∀ a : String, calculateConfidenceScore a [mkSource (9/10)] = 9/10) ∧
    (∀ a : String, calculateConfidenceScore a [mkSource (9/10), mkSource (7/10)] = 22/25) := by
  refine ⟨fun a => rfl, fun a ss hss => ?_, fun a => ?_, fun a => ?_⟩
  · have hne : ss.isEmpty = false := by
      cases ss with
      | nil => exact absurd rfl hss
      | cons h t => rfl
    by_cases h1 : 1 < ss.length
    · simp [calculateConfidenceScore, hne, h1]
    · simp [calculateConfidenceScore, hne, h1]
  · simp [calculateConfidenceScore, mkSource]
    norm_num
  · simp [calculateConfidenceScore, mkSource]
    norm_num

/-- Witness for C1 at a concrete non-empty source list. -/
theorem confidence_score_spec_witness :
    calculateConfidenceScore "q" [mkSource (1/2)] =
      min ((([mkSource (1/2)].map DocumentSource.score).sum /
          (([mkSource (1/2)] : List DocumentSource).length : ℚ)) *
        (if 1 < ([mkSource (1/2)] : List DocumentSource).length then 11/10 else 1)) 1 :=
  confidence_score_spec.2.1 "q" [mkSource (1/2)] (by decide)

/-- C3: every exposed source's score is `min(raw/2, 1)` of the raw
backend score stored by the retriever; for a non-negative raw score the
exposed score lies in [0, 1]; a raw score of 1.8 normalizes to 0.9. -/
theorem score_normalization_spec :
    (∀ doc : Document, (extractSource doc).score = min (rawScore doc / 2) 1) ∧
    (∀ doc : Document, 0 ≤ rawScore doc →
      0 ≤ (extractSource doc).score ∧ (extractSource doc).score ≤ 1) ∧
    normalizeScore (18/10) = 9/10 ∧
    (∀ docs : List Document, extractSources docs = docs.map extractSource) := by
  have hsc : ∀ doc : Document, (extractSource doc).score = min (rawScore doc / 2) 1 :=
    fun doc => rfl
  refine ⟨hsc, fun doc h => ⟨?_, ?_⟩, by norm_num [normalizeScore], fun docs => rfl⟩
  · rw [hsc]
    exact le_min (by positivity) (by norm_num)
  · rw [hsc]
    exact min_le_right _ _

/-- Witness for C3 at a concrete document with raw score 1.8. -/
theorem score_normalization_spec_witness :
    0 ≤ (extractSource sampleDoc).score ∧ (extractSource sampleDoc).score ≤ 1 :=
  score_normalization_spec.2.1 sampleDoc
    (by rw [show rawScore sampleDoc = 18/10 from rfl]; norm_num)

/-- C8: every `DocumentSource` built from a retrieved document carries
a metadata map holding none of the keys `score`, `chunk_id`,
`document_name`, while every other key of the originating document's
metadata is preserved with its value. -/
theorem metadata_stripping_spec (docs : List Document) (src : DocumentSource)
    (h : src ∈ extractSources docs) :
    (∀ p ∈ src.metadata, p.1 ∉ excludedKeys) ∧
    List.lookup "score" src.metadata = none ∧
    List.lookup "chunk_id" src.metadata = none ∧
    List.lookup "document_name" src.metadata = none ∧
    ∃ doc ∈ docs, src = extractSource doc ∧
      ∀ k : String, k ∉ excludedKeys →
        List.lookup k src.metadata = List.lookup k doc.metadata := by
  rcases List.mem_map.mp h with ⟨doc, hdoc, rfl⟩
  have hmeta : (extractSource doc).metadata =
      doc.metadata.filter fun kv => !decide (kv.1 ∈ excludedKeys) := rfl
  refine ⟨?_, ?_, ?_, ?_, doc, hdoc, rfl, ?_⟩
  · intro p hp
    rw [hmeta] at hp
    have := List.of_mem_filter hp
    simpa using this
  · rw [hmeta]
    exact lookup_filter_excluded "score" (by decide) _
  · rw [hmeta]
    exact lookup_filter_excluded "chunk_id" (by decide) _
  · rw [hmeta]
    exact lookup_filter_excluded "document_name" (by decide) _
  · intro k hk
    rw [hmeta]
    exact lookup_filter_not_excluded k hk _

/-- Witness for C8 at a concrete document list and member source. -/
theorem metadata_stripping_spec_witness :
    (∀ p ∈ (extractSource sampleDoc).metadata, p.1 ∉ excludedKeys) ∧
    List.lookup "score" (extractSource sampleDoc).metadata = none ∧
    List.lookup "chunk_id" (extractSource sampleDoc).metadata = none ∧
    List.lookup "document_name" (extractSource sampleDoc).metadata = none ∧
    ∃ doc ∈ [sampleDoc], extractSource sampleDoc = extractSource doc ∧
      ∀ k : String, k ∉ excludedKeys →
        List.lookup k (extractSource sampleDoc).metadata = List.lookup k doc.metadata :=
  metadata_stripping_spec [sampleDoc] (extractSource sampleDoc) (by simp [extractSources])

/-- C9: the retriever's query dispatch falls back to the vector-only
construction when `search_type` is `hybrid` or `keyword` but no truthy
free-text query is supplied, and uses the hybrid respectively
keyword-only construction when it is. -/
theorem search_type_dispatch (emb : List ℚ) (p : SearchParams) (tf : String) :
    ((p.search_type = "hybrid" ∨ p.search_type = "keyword") →
      textQueryTruthy p.text_query = false →
      selectQuery emb p tf = buildVectorQuery emb p) ∧
    (p.search_type = "hybrid" → textQueryTruthy p.text_query = true →
      selectQuery emb p tf = buildHybridQuery emb (p.text_query.getD "") p tf) ∧
    (p.search_type = "keyword" → textQueryTruthy p.text_query = true →
      selectQuery emb p tf = buildKeywordQuery (p.text_query.getD "") p tf) := by
  refine ⟨fun hty htq => ?_, fun hty htq => ?_, fun hty htq => ?_⟩
  · rcases hty with hty | hty <;>
      simp [selectQuery, hty, htq]
  · simp [selectQuery, hty, htq]
  · simp [selectQuery, hty, htq]

/-- Witness for C9: hybrid mode without a text query builds the vector
query. -/
theorem search_type_dispatch_witness :
    selectQuery [1] { search_type := "hybrid", text_query := none } "text" =
      buildVectorQuery [1] { search_type := "hybrid", text_query := none } :=
  (search_type_dispatch [1] { search_type := "hybrid", text_query := none } "text").1
    (Or.inl rfl) rfl

/-- C4: result processing keeps exactly the hits whose raw score
reaches the similarity threshold, sorts them by raw score descending,
and truncates to `top_k`: the output length is the minimum of `top_k`
and the survivor count (hence never exceeds `top_k`), every returned
raw score is at least the threshold, the output is sorted descending,
and whenever the survivors fit within `top_k` they are all returned. -/
theorem process_results_spec (tf : String) (mf : List String)
    (resp : ESResponse) (p : SearchParams) :
    (processResults tf mf resp p).length =
      min p.top_k
        ((resp.hits.filter fun h => !decide (h.score < p.similarity_threshold)).length) ∧
    (processResults tf mf resp p).length ≤ p.top_k ∧
    (∀ x ∈ processResults tf mf resp p, p.similarity_threshold ≤ x.score) ∧
    (processResults tf mf resp p).Pairwise (fun a b => b.score ≤ a.score) ∧
    ((resp.hits.filter fun h => !decide (h.score < p.similarity_threshold)).length ≤ p.top_k →
      List.Perm (processResults tf mf resp p)
        ((resp.hits.filter fun h => !decide (h.score < p.similarity_threshold)).map
          (resultOfHit tf mf))) := by
  have hdef : processResults tf mf resp p =
      (sortByScoreDesc
        ((resp.hits.filter fun h => !decide (h.score < p.similarity_threshold)).map
          (resultOfHit tf mf))).take p.top_k := rfl
  have hlen_sort : (sortByScoreDesc
      ((resp.hits.filter fun h => !decide (h.score < p.similarity_threshold)).map
        (resultOfHit tf mf))).length =
      (resp.hits.filter fun h => !decide (h.score < p.similarity_threshold)).length := by
    rw [(sortByScoreDesc_perm _).length_eq, List.length_map]
  refine ⟨?_, ?_, ?_, ?_, ?_⟩
  · rw [hdef, List.length_take, hlen_sort]
  · rw [hdef, List.length_take]
    exact min_le_left _ _
  · intro x hx
    rw [hdef] at hx
    have hx1 := List.mem_of_mem_take hx
    have hx2 := (sortByScoreDesc_perm _).mem_iff.mp hx1
    rcases List.mem_map.mp hx2 with ⟨hhit, hmem, rfl⟩
    have hkeep := List.of_mem_filter hmem
    have hge : ¬ hhit.score < p.similarity_threshold := by simpa using hkeep
    exact le_of_not_lt hge
  · rw [hdef]
    exact List.Pairwise.sublist (List.take_sublist _ _) (sortByScoreDesc_pairwise _)
  · intro hle
    rw [hdef, List.take_of_length_le (by rw [hlen_sort]; exact hle)]
    exact sortByScoreDesc_perm _

/-- A sample Elasticsearch response with integer raw scores 2, 0 and 3. -/
def sampleResp : ESResponse :=
  { hits := [
      { score := 2, source := [("text", MetaVal.str "chunk a"), ("filename", MetaVal.str "a.pdf")] },
      { score := 0, source := [] },
      { score := 3, source := [("text", MetaVal.str "chunk b")] }] }

/-- Sample search parameters with an integer similarity threshold. -/
def sampleParams : SearchParams :=
  { top_k := 5, similarity_threshold := 1 }

/-- Witness for C4: with survivors fitting within `top_k`, the output
is a permutation of all surviving hits. -/
theorem process_results_spec_witness :
    List.Perm (processResults defaultTextField defaultMetadataFields sampleResp sampleParams)
      ((sampleResp.hits.filter fun h => !decide (h.score < sampleParams.similarity_threshold)).map
        (resultOfHit defaultTextField defaultMetadataFields)) :=
  (process_results_spec defaultTextField defaultMetadataFields sampleResp sampleParams).2.2.2.2
    (by decide)

/-- C2: when retrieval returns no documents, `answer_query` returns a
success-shaped `QueryResponse` carrying the fixed no-information
answer, an empty source list and confidence 0.0, the agent state is
untouched, and the generation backend is never invoked. -/
theorem empty_retrieval_short_circuit (cfg : Settings) (st : AgentState) (env : QueryEnv)
    (q : String) (lp : Option LLMParams) (rp : Option RetrievalOverrides)
    (emb : List ℚ) (h1 : env.embedQuery q = some emb)
    (h2 : env.retrieve (resolveSearchParams cfg.rag rp) = []) :
    answerQuery cfg st env q lp rp =
      { response :=
          { answer := noInfoAnswer, sources := [], query_metadata := none, confidence_score := 0 }
        finalState := st
        llmCalled := false
        genParams := none } := by
  simp [answerQuery, h1, h2]

/-- An environment whose retrieval yields no documents. -/
def envEmptyRetrieval : QueryEnv :=
  { embedQuery := fun _ => some [1]
    retrieve := fun _ => []
    qaChain := fun _ => Except.ok "generated answer" }

/-- Witness for C2 at a concrete empty-retrieval environment. -/
theorem empty_retrieval_short_circuit_witness :
    answerQuery defaultSettings (initialAgentState defaultSettings) envEmptyRetrieval "q" none none =
      { response :=
          { answer := noInfoAnswer, sources := [], query_metadata := none, confidence_score := 0 }
        finalState := initialAgentState defaultSettings
        llmCalled := false
        genParams := none } :=
  empty_retrieval_short_circuit defaultSettings (initialAgentState defaultSettings)
    envEmptyRetrieval "q" none none [1] rfl rfl

/-- C5: a generation exception never escapes `answer_query`: the call
still returns a `QueryResponse` with confidence 0.0 and no sources,
whose answer is one of three pairwise-distinct fixed messages selected
by the exception's type name alone (connectivity/timeout,
model-not-found, unknown), and any text strictly longer than the chosen
fixed message — in particular any such raw exception text — cannot
occur inside it. -/
theorem generation_failure_fallback (cfg : Settings) (st : AgentState) (env : QueryEnv)
    (q : String) (lp : Option LLMParams) (rp : Option RetrievalOverrides)
    (emb : List ℚ) (e : PyError)
    (h1 : env.embedQuery q = some emb)
    (h2 : env.retrieve (resolveSearchParams cfg.rag rp) ≠ [])
    (h3 : env.qaChain q = Except.error e) :
    (answerQuery cfg st env q lp rp).response.answer = generationUserMessage e.typeName ∧
    (answerQuery cfg st env q lp rp).response.sources = [] ∧
    (answerQuery cfg st env q lp rp).response.confidence_score = 0 ∧
    ((strContains e.typeName "Connection" || strContains e.typeName "Timeout") = true →
      generationUserMessage e.typeName = genConnectivityMessage) ∧
    ((strContains e.typeName "Connection" || strContains e.typeName "Timeout") = false →
      (strContains e.typeName "Model" || strContains e.typeName "NotFound") = true →
      generationUserMessage e.typeName = genModelMessage) ∧
    ((strContains e.typeName "Connection" || strContains e.typeName "Timeout") = false →
      (strContains e.typeName "Model" || strContains e.typeName "NotFound") = false →
      generationUserMessage e.typeName = genUnknownMessage) ∧
    (genConnectivityMessage ≠ genModelMessage ∧ genConnectivityMessage ≠ genUnknownMessage ∧
      genModelMessage ≠ genUnknownMessage) ∧
    (∀ m : String, (generationUserMessage e.typeName).data.length < m.data.length →
      strContains (generationUserMessage e.typeName) m = false) := by
  have hresp : (answerQuery cfg st env q lp rp).response =
      { answer := generationUserMessage e.typeName, sources := [], query_metadata := none
        confidence_score := 0 } := by
    rcases hd : env.retrieve (resolveSearchParams cfg.rag rp) with _ | ⟨d, ds⟩
    · exact absurd hd h2
    · cases lp <;> simp [answerQuery, h1, hd, h3]
  refine ⟨by rw [hresp], by rw [hresp], by rw [hresp], fun c1 => ?_, fun c1 c2 => ?_,
    fun c1 c2 => ?_, ⟨by decide, by decide, by decide⟩,
    fun m hm => strContains_eq_false_of_longer _ m hm⟩
  · simp [generationUserMessage, c1]
  · simp [generationUserMessage, c1, c2]
  · simp [generationUserMessage, c1, c2]

/-- An environment whose generation backend raises a connection
error. -/
def envGenFail : QueryEnv :=
  { embedQuery := fun _ => some [1]
    retrieve := fun _ => [sampleDoc]
    qaChain := fun _ =>
      Except.error { typeName := "ConnectionError", message := "connection refused by host" } }

/-- Witness for C5 at a concrete failing generation backend. -/
theorem generation_failure_fallback_witness :
    (answerQuery defaultSettings (initialAgentState defaultSettings) envGenFail "q" none none).response.answer =
      generationUserMessage "ConnectionError" :=
  (generation_failure_fallback defaultSettings (initialAgentState defaultSettings) envGenFail
    "q" none none [1] { typeName := "ConnectionError", message := "connection refused by host" }
    rfl (by simp [envGenFail]) rfl).1

/-- An environment whose embedding generation fails (returns `None`). -/
def envEmbedFail : QueryEnv :=
  { embedQuery := fun _ => none
    retrieve := fun _ => []
    qaChain := fun _ => Except.ok "generated answer" }

/-- C6: with a failed (`None`) query embedding, no invalid-request
error reaches the caller: the `ValueError` raised inside `answer_query`
is swallowed by its own catch-all handler, the agent returns a
success-shaped `QueryResponse` carrying the generic unexpected-error
apology (confidence 0.0, no sources), no generation call happens, and
the `/query` route hands that response back as a success — its
invalid-request branch never fires for this failure. -/
theorem embed_failure_generic_response :
    (answerQuery defaultSettings (initialAgentState defaultSettings) envEmbedFail "q" none none).response =
      { answer := "Sorry, an unexpected error occurred while processing your question. Please try again later."
        sources := []
        query_metadata := none
        confidence_score := 0 } ∧
    (answerQuery defaultSettings (initialAgentState defaultSettings) envEmbedFail "q" none none).llmCalled = false ∧
    topLevelUserMessage "ValueError" =
      "Sorry, an unexpected error occurred while processing your question. Please try again later." ∧
    routeProcessQuery defaultSettings (initialAgentState defaultSettings) envEmbedFail "q" none none =
      RouteResult.ok
        { answer := "Sorry, an unexpected error occurred while processing your question. Please try again later."
          sources := []
          query_metadata := none
          confidence_score := 0 } :=
  ⟨rfl, rfl, rfl, rfl⟩

/-- A fully successful environment: one retrieved document, a generated
answer, one second of elapsed processing time. -/
def envGenOk : QueryEnv :=
  { embedQuery := fun _ => some [1]
    retrieve := fun _ => [sampleDoc]
    qaChain := fun _ => Except.ok "generated answer"
    totalElapsed := 1 }

/-- The agent state left behind by a query that overrides the
temperature to 0.1 and `max_tokens` to 100. -/
def leakedState : AgentState :=
  (answerQuery defaultSettings (initialAgentState defaultSettings) envGenOk "q1"
    (some { temperature := some (1/10), max_tokens := some 100 }) none).finalState

/-- C7: per-request LLM overrides leak into later queries: after a
query overriding temperature to 0.1 and `max_tokens` to 100, a second
query supplying no overrides is generated with those leaked values, not
with the configured defaults (0.7 and 512) — `_update_llm_parameters`
writes the shared client and nothing restores it. -/
theorem llm_override_leak :
    (answerQuery defaultSettings leakedState envGenOk "q2" none none).genParams =
      some { temperature := 1/10, max_tokens := 100, top_p := 9/10 } ∧
    defaultSettings.vllm = { temperature := 7/10, max_tokens := 512, top_p := 9/10 } ∧
    (answerQuery defaultSettings leakedState envGenOk "q2" none none).genParams ≠
      some defaultSettings.vllm := by
  refine ⟨rfl, rfl, fun h => ?_⟩
  have h1 : (answerQuery defaultSettings leakedState envGenOk "q2" none none).genParams.map
      LLMSettings.max_tokens = some 100 := rfl
  rw [h] at h1
  simp [defaultSettings] at h1

/-- C10: the cumulative counters (`total_queries_processed`,
`total_processing_time`) each advance exactly once on the full success
path of `answer_query`, and are untouched by the embedding-failure,
empty-retrieval and generation-failure paths. -/
theorem counters_success_only (cfg : Settings) (st : AgentState) (env : QueryEnv)
    (q : String) (lp : Option LLMParams) (rp : Option RetrievalOverrides) :
    (∀ (emb : List ℚ) (ans : String),
      env.embedQuery q = some emb →
      env.retrieve (resolveSearchParams cfg.rag rp) ≠ [] →
      env.qaChain q = Except.ok ans →
      (answerQuery cfg st env q lp rp).finalState.totalQueriesProcessed =
        st.totalQueriesProcessed + 1 ∧
      (answerQuery cfg st env q lp rp).finalState.totalProcessingTime =
        st.totalProcessingTime + env.totalElapsed) ∧
    (env.embedQuery q = none →
      (answerQuery cfg st env q lp rp).finalState = st) ∧
    (∀ emb : List ℚ,
      env.embedQuery q = some emb →
      env.retrieve (resolveSearchParams cfg.rag rp) = [] →
      (answerQuery cfg st env q lp rp).finalState = st) ∧
    (∀ (emb : List ℚ) (e : PyError),
      env.embedQuery q = some emb →
      env.retrieve (resolveSearchParams cfg.rag rp) ≠ [] →
      env.qaChain q = Except.error e →
      (answerQuery cfg st env q lp rp).finalState.totalQueriesProcessed =
        st.totalQueriesProcessed ∧
      (answerQuery cfg st env q lp rp).finalState.totalProcessingTime =
        st.totalProcessingTime) := by
  refine ⟨fun emb ans h1 h2 h3 => ?_, fun h1 => ?_, fun emb h1 h2 => ?_,
    fun emb e h1 h2 h3 => ?_⟩
  · rcases hd : env.retrieve (resolveSearchParams cfg.rag rp) with _ | ⟨d, ds⟩
    · exact absurd hd h2
    · cases lp <;> simp [answerQuery, h1, hd, h3, updateLlmParameters]
  · simp [answerQuery, h1]
  · simp [answerQuery, h1, h2]
  · rcases hd : env.retrieve (resolveSearchParams cfg.rag rp) with _ | ⟨d, ds⟩
    · exact absurd hd h2
    · cases lp <;> simp [answerQuery, h1, hd, h3, updateLlmParameters]

/-- Witness for C10: a concrete success increments the query counter;
a concrete empty retrieval leaves the state untouched. -/
theorem counters_success_only_witness :
    (answerQuery defaultSettings (initialAgentState defaultSettings) envGenOk "q" none none).finalState.totalQueriesProcessed =
      (initialAgentState defaultSettings).totalQueriesProcessed + 1 ∧
    (answerQuery defaultSettings (initialAgentState defaultSettings) envEmptyRetrieval "q" none none).finalState =
      initialAgentState defaultSettings :=
  ⟨((counters_success_only defaultSettings (initialAgentState defaultSettings) envGenOk
      "q" none none).1 [1] "generated answer" rfl (by simp [envGenOk]) rfl).1,
    (counters_success_only defaultSettings (initialAgentState defaultSettings) envEmptyRetrieval
      "q" none none).2.2.1 [1] rfl rfl⟩

end RagApi
